import Mathlib

/-!
Verification of the SSRF-validation, auth-gating, auto-block and handler
control-flow logic of the AI-Driven Cybersecurity Threat Prediction Platform.

The serverless handlers (Deno edge functions) are embedded as pure Lean
functions over explicit request/database-state records: every effect the
handler can perform (outbound fetch of the user-supplied target, database
row inserts/updates) is recorded in an `Outcome` value, and every external
observation the handler makes (auth lookup result, role lookup, monitoring
status, blocklist membership, LLM response) is a field of the request
record.  WHATWG URL parsing (the `new URL(...)` constructor) is treated
abstractly: a parse either fails or yields a record of the fields the code
reads (`protocol`, `hostname`, `href`), and handlers receive the parse
result of their body URL as an input field.
-/

namespace ThreatPlatform

/-- Character-level lower-casing, mirroring `String.prototype.toLowerCase`
on the character sequence of a string. -/
def toLowerChars (s : String) : List Char :=
  s.data.map Char.toLower

/-- Whether `pat` is a prefix of `hay`. -/
def isPrefixChars : List Char → List Char → Bool
  | [], _ => true
  | _ :: _, [] => false
  | a :: as, b :: bs => a == b && isPrefixChars as bs

/-- Substring containment, mirroring the JavaScript
`String.prototype.includes` test used by the validators: true iff `pat`
occurs somewhere in `hay`. -/
def containsChars (pat : List Char) : List Char → Bool
  | [] => isPrefixChars pat []
  | c :: t => isPrefixChars pat (c :: t) || containsChars pat t

/-- Decimal value of a digit group, mirroring `Number(...)` on the capture
groups of the IPv4 regex (each group is 1-3 ASCII digits). -/
def digitsToNat (g : List Char) : Nat :=
  g.foldl (fun n c => n * 10 + (c.toNat - 48)) 0

/-- Whether a capture group matches `\d{1,3}`: one to three ASCII digits. -/
def isOctetGroup (g : List Char) : Bool :=
  g.length ≥ 1 && g.length ≤ 3 && g.all Char.isDigit

/-- The hostname match against `^(\d{1,3})\.(\d{1,3})\.(\d{1,3})\.(\d{1,3})$`
from the validators, returning the four decimal group values on a match. -/
def ipv4Match (host : List Char) : Option (Nat × Nat × Nat × Nat) :=
  match host.splitOn '.' with
  | [a, b, c, d] =>
    if isOctetGroup a && isOctetGroup b && isOctetGroup c && isOctetGroup d then
      some (digitsToNat a, digitsToNat b, digitsToNat c, digitsToNat d)
    else none
  | _ => none

/-- The private/loopback/link-local IPv4 range test from the validators,
on the first two matched octet values. -/
def privateRange (a b : Nat) : Bool :=
  (a == 10) ||
  (a == 172 && decide (16 ≤ b) && decide (b ≤ 31)) ||
  (a == 192 && b == 168) ||
  (a == 169 && b == 254) ||
  (a == 127) ||
  (a == 0)

/-- The cloud-metadata hostname blocklist shared by the three validators. -/
def blockedDomains : List String :=
  ["metadata.google.internal", "metadata", "instance-data",
   "169.254.169.254", "metadata.azure.com"]

/-- The fields of a WHATWG-parsed URL that the handlers read.  `new URL(s)`
either throws (modelled as `none` at use sites) or yields such a record. -/
structure URLModel where
  protocol : String
  hostname : String
  href : String
deriving DecidableEq

/-- Result type of `validateUrl`: `{ valid: false, error }` or
`{ valid: true, url }`. -/
inductive UrlValidation where
  | invalid (error : String)
  | valid (url : URLModel)
deriving DecidableEq

/-- `validateUrl` from `Backend/supabase/functions/scan-website/index.ts`
(lines 14-65).  The argument is the result of `new URL(urlString)`:
`none` when the constructor throws. -/
def validateUrl (p : Option URLModel) : UrlValidation :=
  match p with
  | none => .invalid "Invalid URL format"
  | some url =>
    if !(url.protocol == "http:" || url.protocol == "https:") then
      .invalid "Only HTTP and HTTPS protocols are allowed"
    else
      let hostname := toLowerChars url.hostname
      if hostname == "localhost".data || hostname == "127.0.0.1".data ||
         hostname == "::1".data || hostname == "0.0.0.0".data then
        .invalid "Localhost access is not allowed"
      else
        let ipBlocked :=
          match ipv4Match hostname with
          | some (a, b, _, _) => privateRange a b
          | none => false
        if ipBlocked then
          .invalid "Private IP ranges are not allowed"
        else if blockedDomains.any (fun d => containsChars d.data hostname) then
          .invalid "Cloud metadata endpoints are not allowed"
        else
          .valid url

/-- `validateUrl` from `Backend/supabase/functions/analyze-qr/index.ts`
(lines 14-65), transcribed independently. -/
def validateUrlQr (p : Option URLModel) : UrlValidation :=
  match p with
  | none => .invalid "Invalid URL format"
  | some url =>
    if !(url.protocol == "http:" || url.protocol == "https:") then
      .invalid "Only HTTP and HTTPS protocols are allowed"
    else
      let hostname := toLowerChars url.hostname
      if hostname == "localhost".data || hostname == "127.0.0.1".data ||
         hostname == "::1".data || hostname == "0.0.0.0".data then
        .invalid "Localhost access is not allowed"
      else
        let ipBlocked :=
          match ipv4Match hostname with
          | some (a, b, _, _) => privateRange a b
          | none => false
        if ipBlocked then
          .invalid "Private IP ranges are not allowed"
        else if blockedDomains.any (fun d => containsChars d.data hostname) then
          .invalid "Cloud metadata endpoints are not allowed"
        else
          .valid url

/-- `validateUrl` from the scan-api handler stored in
`Backend/supabase/functions/block-entity/index.ts` (lines 196-248),
transcribed independently. -/
def validateUrlApi (p : Option URLModel) : UrlValidation :=
  match p with
  | none => .invalid "Invalid URL format"
  | some url =>
    if !(url.protocol == "http:" || url.protocol == "https:") then
      .invalid "Only HTTP and HTTPS protocols are allowed"
    else
      let hostname := toLowerChars url.hostname
      if hostname == "localhost".data || hostname == "127.0.0.1".data ||
         hostname == "::1".data || hostname == "0.0.0.0".data then
        .invalid "Localhost access is not allowed"
      else
        let ipBlocked :=
          match ipv4Match hostname with
          | some (a, b, _, _) => privateRange a b
          | none => false
        if ipBlocked then
          .invalid "Private IP ranges are not allowed"
        else if blockedDomains.any (fun d => containsChars d.data hostname) then
          .invalid "Cloud metadata endpoints are not allowed"
        else
          .valid url

/-- Spec-side rejection predicate, written from the words of the spec and of
claim C1: the input does not parse, or the protocol is neither http nor
https, or the lower-cased hostname is one of the four loopback names, or the
hostname is a dotted-quad IPv4 address in one of the six listed ranges, or
the hostname contains a known cloud-metadata host string. -/
def specSsrfRejected (p : Option URLModel) : Bool :=
  match p with
  | none => true
  | some url =>
    let host := toLowerChars url.hostname
    !(url.protocol == "http:" || url.protocol == "https:") ||
    (host == "localhost".data || host == "127.0.0.1".data ||
     host == "::1".data || host == "0.0.0.0".data) ||
    (match ipv4Match host with
     | some (a, b, _, _) =>
       (a == 0) || (a == 10) || (a == 127) ||
       (a == 169 && b == 254) ||
       (a == 172 && decide (16 ≤ b) && decide (b ≤ 31)) ||
       (a == 192 && b == 168)
     | none => false) ||
    blockedDomains.any (fun d => containsChars d.data host)

/-- A database write performed through the service-role client, tagged with
the fields the claims inspect. -/
inductive DbWrite where
  | scanResults (scanType status : String)
  | threats (sourceType : String)
  | auditLogs (action : String)
  | blockedEntities (entityType value : String)
  | blockedAttacks (sourceIp : String) (autoBlocked : Bool)
  | realtimeLogs (source : String)
  | liveAttacks (sourceIp : String)
  | monitoringStatus (newStatus : String)
deriving DecidableEq

/-- Observable outcome of one handler invocation: the HTTP status, the
`error`/`success`/`message` fields of the JSON response where present,
whether the response body was the hardcoded fallback object, the list of
outbound fetches of the user-supplied target (calls to the LLM API are not
target fetches and are not recorded here), and the database writes in
program order. -/
structure Outcome where
  status : Nat
  error : Option String
  success : Option Bool
  message : Option String
  usedFallback : Option Bool
  fetched : List String
  writes : List DbWrite
deriving DecidableEq

/-- An error response carrying only an error message: no fetch, no write. -/
def errResp (code : Nat) (msg : String) : Outcome :=
  ⟨code, some msg, none, none, none, [], []⟩

/-- Environment of the website/QR scan handlers: the Authorization header
presence, the `auth.getUser()` result for that header, the `url` field of
the JSON body (`none` models absent or empty), the `new URL(url)` parse
result, and the database/LLM observations the handler makes. -/
structure ScanRequest where
  hasAuthHeader : Bool
  authUser : Option String
  bodyUrl : Option String
  parsed : Option URLModel
  monitoringPaused : Bool
  domainBlocked : Bool
  isHttps : Bool
  geminiVulns : Option Nat
deriving DecidableEq

/-- The `serve` handler of `Backend/supabase/functions/scan-website/index.ts`
(lines 147-353).  `geminiVulns` is the `total_vulnerabilities` field of the
object returned by `analyzeWithGemini`, `none` when that call returns null;
the fallback object then has 2 vulnerabilities over https and 5 otherwise. -/
def scanWebsiteBackend (r : ScanRequest) : Outcome :=
  if !r.hasAuthHeader then
    errResp 401 "Unauthorized - Authentication required"
  else if r.authUser.isNone then
    errResp 401 "Invalid or expired authentication token"
  else
    match r.bodyUrl with
    | none => errResp 400 "URL is required"
    | some _ =>
      match validateUrl r.parsed with
      | .invalid e => errResp 400 e
      | .valid u =>
        if r.monitoringPaused then
          errResp 403 "Monitoring is paused. Resume to perform scans."
        else if r.domainBlocked then
          errResp 403 "This domain is blocked"
        else
          let vulns :=
            match r.geminiVulns with
            | some v => v
            | none => if r.isHttps then 2 else 5
          let writes :=
            [DbWrite.scanResults "website" "completed"] ++
            (if vulns > 0 then [DbWrite.threats "website"] else []) ++
            [DbWrite.auditLogs "website_scan"]
          ⟨200, none, none, none, some r.geminiVulns.isNone, [u.href], writes⟩

/-- Result object of the QR analysis, restricted to the fields the handler
branches on. -/
structure QrAnalysis where
  isMalicious : Bool
  threatScore : Nat
deriving DecidableEq

/-- Suspicious TLD list of the analyze-qr fallback heuristics. -/
def suspiciousTlds : List String := [".xyz", ".tk", ".ml", ".ga", ".cf", ".gq"]

/-- URL-shortener patterns of the analyze-qr fallback regex. -/
def shortenerPats : List String :=
  ["bit.ly", "tinyurl", "t.co", "goo.gl", "ow.ly", "is.gd"]

/-- The hardcoded fallback analysis of analyze-qr, computed from the
validated URL string when the LLM call fails. -/
def qrFallback (validatedUrl : String) : QrAnalysis :=
  let lower := toLowerChars validatedUrl
  let tld := suspiciousTlds.any (fun t => containsChars t.data lower)
  let short := shortenerPats.any (fun t => containsChars t.data lower)
  ⟨tld || short, if tld then 75 else if short then 50 else 15⟩

/-- Environment of the analyze-qr handler. -/
structure QrRequest where
  hasAuthHeader : Bool
  authUser : Option String
  bodyUrl : Option String
  parsed : Option URLModel
  monitoringPaused : Bool
  domainBlocked : Bool
  gemini : Option QrAnalysis
deriving DecidableEq

/-- The `serve` handler of `Backend/supabase/functions/analyze-qr/index.ts`
(lines 130-293).  The handler never fetches the scanned URL itself; its only
outbound call is the LLM API (not recorded as a target fetch). -/
def analyzeQrBackend (r : QrRequest) : Outcome :=
  if !r.hasAuthHeader then
    errResp 401 "Unauthorized - Authentication required"
  else if r.authUser.isNone then
    errResp 401 "Invalid or expired authentication token"
  else
    match r.bodyUrl with
    | none => errResp 400 "URL is required"
    | some _ =>
      match validateUrlQr r.parsed with
      | .invalid e => errResp 400 e
      | .valid u =>
        if r.monitoringPaused then
          errResp 403 "Monitoring is paused. Resume to perform scans."
        else if r.domainBlocked then
          ⟨200, none, none, none, none, [], []⟩
        else
          let analysis :=
            match r.gemini with
            | some g => g
            | none => qrFallback u.href
          let writes :=
            [DbWrite.scanResults "qr" "completed"] ++
            (if analysis.isMalicious then [DbWrite.threats "qr"] else []) ++
            [DbWrite.auditLogs "qr_analysis"]
          ⟨200, none, none, none, some r.gemini.isNone, [], writes⟩

/-- Environment of the API scan handlers (`endpoint` body field). -/
structure ApiRequest where
  hasAuthHeader : Bool
  authUser : Option String
  endpoint : Option String
  parsed : Option URLModel
  monitoringPaused : Bool
  domainBlocked : Bool
  geminiVulns : Option Nat
deriving DecidableEq

/-- The secured scan-api `serve` handler stored in
`Backend/supabase/functions/block-entity/index.ts` (lines 317-520).
`geminiVulns` is the length of the `vulnerabilities` array of the LLM
result, `none` when the call fails; the fallback object lists 2
vulnerabilities. -/
def scanApiBackend (r : ApiRequest) : Outcome :=
  if !r.hasAuthHeader then
    errResp 401 "Unauthorized - Authentication required"
  else if r.authUser.isNone then
    errResp 401 "Invalid or expired authentication token"
  else
    match r.endpoint with
    | none => errResp 400 "Endpoint URL is required"
    | some _ =>
      match validateUrlApi r.parsed with
      | .invalid e => errResp 400 e
      | .valid u =>
        if r.monitoringPaused then
          errResp 403 "Monitoring is paused. Resume to perform scans."
        else if r.domainBlocked then
          errResp 403 "This API domain is blocked"
        else
          let vulns :=
            match r.geminiVulns with
            | some v => v
            | none => 2
          let writes :=
            [DbWrite.scanResults "api" "completed"] ++
            (if vulns > 0 then [DbWrite.threats "api"] else []) ++
            [DbWrite.auditLogs "api_scan"]
          ⟨200, none, none, none, some r.geminiVulns.isNone, [u.href], writes⟩

/-- The legacy duplicate `serve` handler of
`supabase/functions/scan-website/index.ts` (lines 91-253): no Authorization
check and no `validateUrl` call; the user URL is fetched directly after the
monitoring and blocklist checks.  A parse failure of `new URL(url)` at the
blocklist check throws and is caught as a 500. -/
def scanWebsiteLegacy (r : ScanRequest) : Outcome :=
  match r.bodyUrl with
  | none => errResp 400 "URL is required"
  | some urlStr =>
    if r.monitoringPaused then
      errResp 403 "Monitoring is paused. Resume to perform scans."
    else
      match r.parsed with
      | none => errResp 500 "Invalid URL"
      | some _ =>
        if r.domainBlocked then
          errResp 403 "This domain is blocked"
        else
          let vulns :=
            match r.geminiVulns with
            | some v => v
            | none => if r.isHttps then 2 else 5
          let writes :=
            [DbWrite.scanResults "website" "completed"] ++
            (if vulns > 0 then [DbWrite.threats "website"] else [])
          ⟨200, none, none, none, some r.geminiVulns.isNone, [urlStr], writes⟩

/-- The legacy duplicate `serve` handler of
`supabase/functions/scan-api/index.ts` (lines 78-236): no Authorization
check and no `validateUrl` call; the endpoint is fetched directly. -/
def scanApiLegacy (r : ApiRequest) : Outcome :=
  match r.endpoint with
  | none => errResp 400 "Endpoint URL is required"
  | some endpointStr =>
    if r.monitoringPaused then
      errResp 403 "Monitoring is paused. Resume to perform scans."
    else
      match r.parsed with
      | none => errResp 500 "Invalid URL"
      | some _ =>
        if r.domainBlocked then
          errResp 403 "This API domain is blocked"
        else
          let vulns :=
            match r.geminiVulns with
            | some v => v
            | none => 2
          let writes :=
            [DbWrite.scanResults "api" "completed"] ++
            (if vulns > 0 then [DbWrite.threats "api"] else [])
          ⟨200, none, none, none, some r.geminiVulns.isNone, [endpointStr], writes⟩

/-- Result object of the static file analysis, restricted to the fields the
handler branches on. -/
structure StaticAnalysis where
  isMalicious : Bool
  indicatorCount : Nat
deriving DecidableEq

/-- Suspicious file-extension list of the scan-static fallback. -/
def suspiciousExtensions : List String :=
  ["exe", "dll", "bat", "cmd", "ps1", "vbs", "js", "jar"]

/-- `filename.split('.').pop()?.toLowerCase() || ''` from the scan-static
fallback. -/
def fileExt (filename : String) : List Char :=
  ((filename.data.splitOn '.').getLastD []).map Char.toLower

/-- The hardcoded fallback analysis of scan-static: never malicious, one
indicator when the extension is on the suspicious list. -/
def staticFallback (filename : String) : StaticAnalysis :=
  let isSuspicious := suspiciousExtensions.any (fun e => e.data == fileExt filename)
  ⟨false, if isSuspicious then 1 else 0⟩

/-- Environment of the scan-static handler.  The handler never reads the
Authorization header; the field records whether the request carried one. -/
structure StaticRequest where
  hasAuthHeader : Bool
  filename : Option String
  monitoringPaused : Bool
  gemini : Option StaticAnalysis
deriving DecidableEq

/-- The scan-static `serve` handler stored in
`Backend/supabase/functions/block-entity/index.ts` (lines 577-687): no
Authorization check; after the monitoring check it stores a completed
scan_results row (and a threats row when malicious). -/
def scanStatic (r : StaticRequest) : Outcome :=
  match r.filename with
  | none => errResp 400 "Filename is required"
  | some filename =>
    if r.monitoringPaused then
      errResp 403 "Monitoring is paused. Resume to perform scans."
    else
      let analysis :=
        match r.gemini with
        | some g => g
        | none => staticFallback filename
      let writes :=
        [DbWrite.scanResults "static" "completed"] ++
        (if analysis.isMalicious then [DbWrite.threats "file"] else [])
      ⟨200, none, none, none, some r.gemini.isNone, [], writes⟩

/-- Environment of the monitor-control handler.  The handler never reads the
Authorization header; `statusRow` is the current `monitoring_status.status`
row (`none` models a fetch error, which the handler rethrows as a 500). -/
structure MonitorRequest where
  hasAuthHeader : Bool
  action : Option String
  statusRow : Option String
deriving DecidableEq

/-- The `serve` handler of
`Backend/supabase/functions/monitor-control/index.ts` (lines 9-97): with no
authentication of any kind it updates `monitoring_status` and inserts an
audit_logs row on a pause/resume action. -/
def monitorControl (r : MonitorRequest) : Outcome :=
  match r.action with
  | none => errResp 400 "Invalid action. Use: pause, resume, or status"
  | some a =>
    if !(a == "pause" || a == "resume" || a == "status") then
      errResp 400 "Invalid action. Use: pause, resume, or status"
    else
      match r.statusRow with
      | none => errResp 500 "Unknown error"
      | some _ =>
        if a == "status" then
          ⟨200, none, none, none, none, [], []⟩
        else
          let newStatus := if a == "pause" then "paused" else "active"
          let verb := if a == "pause" then "paused" else "resumed"
          ⟨200, none, some true,
           some ("Monitoring " ++ verb ++ " successfully"), none, [],
           [DbWrite.monitoringStatus newStatus,
            DbWrite.auditLogs ("monitoring_" ++ a)]⟩

/-- Environment of the block-entity handler: auth observations, the
`user_roles` lookup for the caller (`none` models no row or a query error),
the `type`/`value`/`auto_blocked` body fields, whether the (type, value)
pair is already present in blocked_entities, and whether the insert
succeeds. -/
structure BlockRequest where
  hasAuthHeader : Bool
  authUser : Option String
  role : Option String
  bodyType : Option String
  bodyValue : Option String
  autoBlocked : Bool
  alreadyBlocked : Bool
  insertOk : Bool
deriving DecidableEq

/-- The `serve` handler of
`Backend/supabase/functions/block-entity/index.ts` (lines 12-184). -/
def blockEntity (r : BlockRequest) : Outcome :=
  if !r.hasAuthHeader then
    errResp 401 "Unauthorized - Authentication required"
  else if r.authUser.isNone then
    errResp 401 "Invalid or expired authentication token"
  else if r.role != some "admin" then
    errResp 403 "Forbidden - Admin role required to block entities"
  else
    match r.bodyType, r.bodyValue with
    | none, _ => errResp 400 "Type and value are required"
    | _, none => errResp 400 "Type and value are required"
    | some t, some v =>
      if !(["ip", "domain", "api_key"].contains t) then
        errResp 400 "Invalid type. Use: ip, domain, or api_key"
      else if r.alreadyBlocked then
        ⟨200, none, some false, some (t ++ " is already blocked"),
         none, [], []⟩
      else if !r.insertOk then
        errResp 500 "Unknown error"
      else
        let writes :=
          [DbWrite.blockedEntities t v] ++
          (if t == "ip" then [DbWrite.blockedAttacks v r.autoBlocked] else []) ++
          [DbWrite.auditLogs "entity_blocked",
           DbWrite.realtimeLogs "block-entity"]
        ⟨200, none, some true, some (t ++ " blocked successfully"),
         none, [], writes⟩

/-- Environment of the live-threat-stream handler.  The randomly generated
attack batch is abstracted as an input list of (source IP, severity) pairs,
and `blockedIps` is the set of blocked IP entities read from the database. -/
structure StreamRequest where
  hasAuthHeader : Bool
  authUser : Option String
  monitoringPaused : Bool
  attacks : List (String × String)
  blockedIps : List String
deriving DecidableEq

/-- The `serve` handler of
`Backend/supabase/functions/live-threat-stream/index.ts` (lines 107-271):
after the auth and monitoring checks it persists the first five non-blocked
generated attacks as live_attacks rows.  The paused branch returns 200 with
an error field and no writes. -/
def liveThreatStream (r : StreamRequest) : Outcome :=
  if !r.hasAuthHeader then
    errResp 401 "Unauthorized - Authentication required"
  else if r.authUser.isNone then
    errResp 401 "Invalid or expired authentication token"
  else if r.monitoringPaused then
    ⟨200, some "Monitoring is paused", none, none, none, [], []⟩
  else
    let kept := r.attacks.filter (fun a => !(r.blockedIps.contains a.1))
    let writes := (kept.take 5).map (fun a => DbWrite.liveAttacks a.1)
    ⟨200, none, none, none, none, [], writes⟩

/-- A live_attacks row as delivered in a realtime INSERT payload, restricted
to the fields the auto-block callback reads. -/
structure LiveAttack where
  id : String
  sourceIp : String
  attackType : String
  severity : String
deriving DecidableEq

/-- The body of a `block-entity` invocation issued by the useSecurityStats
hook. -/
structure BlockInvocation where
  entityType : String
  value : String
  attackId : String
  attackType : String
  severity : String
  reason : String
  autoBlocked : Bool
deriving DecidableEq

/-- `toggleAutoBlock` from `unnamed/part_004` (lines 108-122): flipping the
flag on is refused unless the current user is an admin; flipping it off is
always allowed. -/
def toggleAutoBlock (isAdmin prev : Bool) : Bool :=
  let newValue := !prev
  if newValue && !isAdmin then prev else newValue

/-- The effect of `unnamed/part_004` lines 125-133: once the role check has
finished, a non-admin user has the auto-block flag forced off. -/
def enforceAdminAutoBlock (isRoleLoading isAdmin flag : Bool) : Bool :=
  if isRoleLoading then flag
  else if isAdmin then flag
  else if !flag then flag
  else false

/-- Whether the auto-block realtime channel is subscribed
(`unnamed/part_004` lines 272-274): only when the flag is on and the user is
an admin. -/
def autoBlockSubscribed (autoBlockEnabled isAdmin : Bool) : Bool :=
  autoBlockEnabled && isAdmin

/-- The server-side realtime filter `severity=in.(critical,high)` on the
auto-block subscription. -/
def realtimeFilterMatches (severity : String) : Bool :=
  severity == "critical" || severity == "high"

/-- The auto-block callback body (`unnamed/part_004` lines 286-311): a
client-side severity recheck, then a block-entity invocation for the row
source IP with `auto_blocked: true`. -/
def autoBlockCallback (attack : LiveAttack) : Option BlockInvocation :=
  if attack.severity != "critical" && attack.severity != "high" then none
  else
    some ⟨"ip", attack.sourceIp, attack.id, attack.attackType,
          attack.severity,
          "Auto-blocked " ++ attack.severity ++ " threat", true⟩

/-- The block-entity invocation produced by one realtime INSERT of a
live_attacks row, given the current flag and role: the callback runs only
when the channel is subscribed and the row passes the severity filter. -/
def autoBlockOnInsert (autoBlockEnabled isAdmin : Bool)
    (attack : LiveAttack) : Option BlockInvocation :=
  if autoBlockSubscribed autoBlockEnabled isAdmin &&
     realtimeFilterMatches attack.severity then
    autoBlockCallback attack
  else none

/-- Ambient state a handler could in principle consult: database contents,
environment variables, a request counter.  The body of `validateUrl`
references none of these (it reads only its argument and its own local
constants), which the state-passing wrapper below records. -/
structure ServerState where
  dbRows : List DbWrite
  envVars : List (String × String)
  requestCount : Nat
deriving DecidableEq

/-- `validateUrl` as it executes inside a handler invocation: the ambient
state is in scope but the function body never reads it. -/
def validateUrlIn (st : ServerState) (p : Option URLModel) : UrlValidation :=
  let _ := st
  validateUrl p

/-- Whether a validation result is a rejection. -/
def UrlValidation.isInvalid : UrlValidation → Bool
  | .invalid _ => true
  | .valid _ => false

theorem privateRange_reorder (a b : Nat) :
    privateRange a b =
      ((a == 0) || (a == 10) || (a == 127) ||
       (a == 169 && b == 254) ||
       (a == 172 && decide (16 ≤ b) && decide (b ≤ 31)) ||
       (a == 192 && b == 168)) := by
  refine Bool.eq_iff_iff.mpr ?_
  simp only [privateRange, Bool.or_eq_true, Bool.and_eq_true]
  tauto

theorem validateUrl_isInvalid_eq_spec (p : Option URLModel) :
    (validateUrl p).isInvalid = specSsrfRejected p := by
  cases p with
  | none => rfl
  | some url =>
    simp only [validateUrl, specSsrfRejected]
    cases hq : ipv4Match (toLowerChars url.hostname) with
    | none =>
      cases hA : (url.protocol == "http:" || url.protocol == "https:") <;>
      cases hB : (toLowerChars url.hostname == "localhost".data ||
          toLowerChars url.hostname == "127.0.0.1".data ||
          toLowerChars url.hostname == "::1".data ||
          toLowerChars url.hostname == "0.0.0.0".data) <;>
      cases hD : (blockedDomains.any
          (fun d => containsChars d.data (toLowerChars url.hostname))) <;>
      simp [hA, hB, hD, UrlValidation.isInvalid]
    | some quad =>
      obtain ⟨a, b, c, d⟩ := quad
      cases hA : (url.protocol == "http:" || url.protocol == "https:") <;>
      cases hB : (toLowerChars url.hostname == "localhost".data ||
          toLowerChars url.hostname == "127.0.0.1".data ||
          toLowerChars url.hostname == "::1".data ||
          toLowerChars url.hostname == "0.0.0.0".data) <;>
      cases hC : ((a == 0) || (a == 10) || (a == 127) ||
          (a == 169 && b == 254) ||
          (a == 172 && decide (16 ≤ b) && decide (b ≤ 31)) ||
          (a == 192 && b == 168)) <;>
      cases hD : (blockedDomains.any
          (fun d => containsChars d.data (toLowerChars url.hostname))) <;>
      simp [hA, hB, hC, hD, UrlValidation.isInvalid, privateRange_reorder]

theorem validateUrl_valid_eq {p : Option URLModel} {u : URLModel}
    (h : validateUrl p = .valid u) : p = some u := by
  cases p with
  | none => exact absurd h (by simp [validateUrl])
  | some url =>
    simp only [validateUrl] at h
    split at h
    · exact absurd h (by simp)
    · split at h
      · exact absurd h (by simp)
      · split at h
        · exact absurd h (by simp)
        · split at h
          · exact absurd h (by simp)
          · injection h with h2
            rw [h2]

/-- C1: for every input, `validateUrl` returns invalid (with an error
message) exactly when the input fails to parse as a URL, the protocol is
neither http nor https, the lower-cased hostname is a loopback name, the
hostname is a dotted-quad IPv4 address in one of the six blocked ranges, or
the hostname contains a known cloud-metadata host string; in every other
case it returns valid together with the parsed URL. -/
theorem validateUrl_matches_spec :
    ∀ p : Option URLModel,
      ((∃ e, validateUrl p = .invalid e) ↔ specSsrfRejected p = true) ∧
      (∀ u : URLModel,
        validateUrl p = .valid u ↔
          (p = some u ∧ specSsrfRejected p = false)) := by
  intro p
  constructor
  · constructor
    · rintro ⟨e, he⟩
      have h := validateUrl_isInvalid_eq_spec p
      rw [he] at h
      exact h.symm
    · intro hs
      cases hv : validateUrl p with
      | invalid e => exact ⟨e, rfl⟩
      | valid u =>
        have h := validateUrl_isInvalid_eq_spec p
        rw [hv, hs] at h
        exact absurd h (by simp [UrlValidation.isInvalid])
  · intro u
    constructor
    · intro h
      refine ⟨validateUrl_valid_eq h, ?_⟩
      have h2 := validateUrl_isInvalid_eq_spec p
      rw [h] at h2
      exact h2.symm
    · rintro ⟨hp, hs⟩
      subst hp
      cases hv : validateUrl (some u) with
      | invalid e =>
        have h := validateUrl_isInvalid_eq_spec (some u)
        rw [hv, hs] at h
        exact absurd h (by simp [UrlValidation.isInvalid])
      | valid w =>
        have h := validateUrl_valid_eq hv
        injection h with h2
        rw [h2]

/-- C3: the three `validateUrl` copies carried by the scan-website,
analyze-qr and scan-api functions agree on every input, both on the
valid/invalid verdict and on the error message and parsed URL returned. -/
theorem validateUrl_copies_agree :
    ∀ p : Option URLModel,
      validateUrlQr p = validateUrl p ∧ validateUrlApi p = validateUrl p := by
  intro p
  exact ⟨rfl, rfl⟩

/-- C8: `validateUrl` is a pure, stateless, deterministic predicate: its
result on a given input is independent of any ambient server state
(database contents, environment, request history), so any two calls on the
same input agree on the verdict, the error message and the parsed URL. -/
theorem validateUrl_state_independent :
    ∀ (s1 s2 : ServerState) (p : Option URLModel),
      validateUrlIn s1 p = validateUrlIn s2 p := by
  intro s1 s2 p
  rfl

/-- C4: a realtime INSERT of a live_attacks row triggers a block-entity
invocation for the row source IP with `auto_blocked = true` exactly when
the auto-block flag is on, the user is an admin, and the severity is
critical or high; the toggle refuses to switch the flag on for a non-admin,
always allows switching it off, and the enforcement effect forces the flag
off once a finished role check shows the user is not an admin. -/
theorem autoBlock_rule :
    ∀ (enabled isAdmin : Bool) (attack : LiveAttack)
      (inv : BlockInvocation) (f : Bool),
      (autoBlockOnInsert enabled isAdmin attack = some inv ↔
        (enabled = true ∧ isAdmin = true ∧
         (attack.severity = "critical" ∨ attack.severity = "high") ∧
         inv = ⟨"ip", attack.sourceIp, attack.id, attack.attackType,
                attack.severity,
                "Auto-blocked " ++ attack.severity ++ " threat", true⟩)) ∧
      toggleAutoBlock false false = false ∧
      toggleAutoBlock true false = true ∧
      toggleAutoBlock isAdmin true = false ∧
      enforceAdminAutoBlock false false f = false := by
  intro enabled isAdmin attack inv f
  refine ⟨?_, rfl, rfl, ?_, ?_⟩
  · simp only [autoBlockOnInsert, autoBlockSubscribed, realtimeFilterMatches,
      autoBlockCallback, bne]
    cases he : enabled <;> cases ha : isAdmin <;>
    by_cases hc : attack.severity = "critical" <;>
    by_cases hh : attack.severity = "high" <;>
    simp [hc, hh] <;>
    exact eq_comm
  · cases isAdmin <;> rfl
  · cases f <;> rfl

/-- The analyze-qr handler performs no outbound fetch of the scanned URL in
any branch (its only network call is the LLM API). -/
theorem analyzeQrBackend_no_target_fetch (x : QrRequest) :
    (analyzeQrBackend x).fetched = [] := by
  unfold analyzeQrBackend
  repeat' split
  all_goals rfl

/-- The WHATWG parse of the cloud-metadata URL
`http://169.254.169.254/`. -/
def metadataParsedUrl : URLModel :=
  ⟨"http:", "169.254.169.254", "http://169.254.169.254/"⟩

/-- A request to the legacy scan-website duplicate carrying the metadata
URL, with monitoring active and the domain not blocked. -/
def metadataLegacyRequest : ScanRequest :=
  ⟨false, none, some "http://169.254.169.254/", some metadataParsedUrl,
   false, false, false, none⟩

/-- C2 counterexample: the SSRF validator rejects
`http://169.254.169.254/`, yet the scan-website duplicate under
`supabase/functions` (cited by the claim) fetches exactly that URL and
completes with a 200 rather than returning an error first. -/
theorem scanWebsiteLegacy_fetches_rejected_url :
    validateUrl (some metadataParsedUrl) =
      .invalid "Private IP ranges are not allowed" ∧
    (scanWebsiteLegacy metadataLegacyRequest).fetched =
      ["http://169.254.169.254/"] ∧
    (scanWebsiteLegacy metadataLegacyRequest).status = 200 := by
  refine ⟨by decide, by decide, by decide⟩

/-- C2 amended: in the secured copies under `Backend/supabase/functions`
(scan-website, scan-api, analyze-qr), a URL the SSRF validator rejects is
answered with an error response and the target is never fetched (and no row
is written); analyze-qr never fetches the target at all.  The duplicate
handlers under `supabase/functions` perform the fetch without any SSRF
validation. -/
theorem backend_fetch_only_validated (r : ScanRequest) (q : ApiRequest)
    (x : QrRequest)
    (hr : (validateUrl r.parsed).isInvalid = true)
    (hq : (validateUrlApi q.parsed).isInvalid = true) :
    (scanWebsiteBackend r).fetched = [] ∧
    (scanWebsiteBackend r).writes = [] ∧
    (scanWebsiteBackend r).status ≠ 200 ∧
    (scanApiBackend q).fetched = [] ∧
    (scanApiBackend q).writes = [] ∧
    (scanApiBackend q).status ≠ 200 ∧
    (analyzeQrBackend x).fetched = [] := by
  obtain ⟨e1, he1⟩ : ∃ e, validateUrl r.parsed = .invalid e := by
    cases h : validateUrl r.parsed with
    | invalid e => exact ⟨e, rfl⟩
    | valid u => rw [h] at hr; exact absurd hr (by simp [UrlValidation.isInvalid])
  obtain ⟨e2, he2⟩ : ∃ e, validateUrlApi q.parsed = .invalid e := by
    cases h : validateUrlApi q.parsed with
    | invalid e => exact ⟨e, rfl⟩
    | valid u => rw [h] at hq; exact absurd hq (by simp [UrlValidation.isInvalid])
  refine ⟨?_, ?_, ?_, ?_, ?_, ?_, analyzeQrBackend_no_target_fetch x⟩ <;>
  · cases hh : r.hasAuthHeader <;> cases hu : r.authUser <;>
    cases hb : r.bodyUrl <;>
    cases hh2 : q.hasAuthHeader <;> cases hu2 : q.authUser <;>
    cases hb2 : q.endpoint <;>
    simp [scanWebsiteBackend, scanApiBackend, errResp, hh, hu, hb,
      hh2, hu2, hb2, he1, he2]

/-- A scan request whose URL fails to parse, used to witness the amended
C2 statement. -/
def invalidUrlScanReq : ScanRequest :=
  ⟨true, some "u1", some "not a url", none, false, false, false, none⟩

def invalidUrlApiReq : ApiRequest :=
  ⟨true, some "u1", some "not a url", none, false, false, none⟩

def invalidUrlQrReq : QrRequest :=
  ⟨true, some "u1", some "not a url", none, false, false, none⟩

theorem backend_fetch_only_validated_witness :
    (scanWebsiteBackend invalidUrlScanReq).fetched = [] ∧
    (scanWebsiteBackend invalidUrlScanReq).writes = [] ∧
    (scanWebsiteBackend invalidUrlScanReq).status ≠ 200 ∧
    (scanApiBackend invalidUrlApiReq).fetched = [] ∧
    (scanApiBackend invalidUrlApiReq).writes = [] ∧
    (scanApiBackend invalidUrlApiReq).status ≠ 200 ∧
    (analyzeQrBackend invalidUrlQrReq).fetched = [] :=
  backend_fetch_only_validated invalidUrlScanReq invalidUrlApiReq
    invalidUrlQrReq (by decide) (by decide)

/-- C5 counterexample: a monitor-control request with no Authorization
header and action `pause` is not rejected with 401; it succeeds with 200
and performs two database writes (the status update and an audit_logs
insert). -/
theorem monitorControl_unauthenticated_write :
    (⟨false, some "pause", some "active"⟩ : MonitorRequest).hasAuthHeader
      = false ∧
    (monitorControl ⟨false, some "pause", some "active"⟩).status = 200 ∧
    (monitorControl ⟨false, some "pause", some "active"⟩).writes =
      [DbWrite.monitoringStatus "paused",
       DbWrite.auditLogs "monitoring_pause"] := by
  refine ⟨rfl, by decide, by decide⟩

/-- C5 amended: the scan-website, analyze-qr, scan-api (secured copies),
block-entity and live-threat-stream handlers reject a request without an
Authorization header with status 401 before any database write or target
fetch; the monitor-control, scan-static and multi-agent-analysis handlers
(and the duplicates under `supabase/functions`) perform no Authorization
check at all. -/
theorem auth_checked_handlers_reject_missing_header
    (r : ScanRequest) (x : QrRequest) (q : ApiRequest)
    (b : BlockRequest) (s : StreamRequest)
    (hr : r.hasAuthHeader = false) (hx : x.hasAuthHeader = false)
    (hq2 : q.hasAuthHeader = false) (hb : b.hasAuthHeader = false)
    (hs : s.hasAuthHeader = false) :
    ((scanWebsiteBackend r).status = 401 ∧
     (scanWebsiteBackend r).writes = [] ∧
     (scanWebsiteBackend r).fetched = []) ∧
    ((analyzeQrBackend x).status = 401 ∧ (analyzeQrBackend x).writes = []) ∧
    ((scanApiBackend q).status = 401 ∧ (scanApiBackend q).writes = [] ∧
     (scanApiBackend q).fetched = []) ∧
    ((blockEntity b).status = 401 ∧ (blockEntity b).writes = []) ∧
    ((liveThreatStream s).status = 401 ∧
     (liveThreatStream s).writes = []) := by
  simp [scanWebsiteBackend, analyzeQrBackend, scanApiBackend, blockEntity,
    liveThreatStream, errResp, hr, hx, hq2, hb, hs]

/-- A header-less request to each auth-checking handler, used to witness
the amended C5 statement. -/
def noAuthScanReq : ScanRequest :=
  ⟨false, none, none, none, false, false, false, none⟩

def noAuthQrReq : QrRequest := ⟨false, none, none, none, false, false, none⟩

def noAuthApiReq : ApiRequest := ⟨false, none, none, none, false, false, none⟩

def noAuthBlockReq : BlockRequest :=
  ⟨false, none, none, none, none, false, false, true⟩

def noAuthStreamReq : StreamRequest := ⟨false, none, false, [], []⟩

theorem auth_checked_handlers_reject_missing_header_witness :
    ((scanWebsiteBackend noAuthScanReq).status = 401 ∧
     (scanWebsiteBackend noAuthScanReq).writes = [] ∧
     (scanWebsiteBackend noAuthScanReq).fetched = []) ∧
    ((analyzeQrBackend noAuthQrReq).status = 401 ∧
     (analyzeQrBackend noAuthQrReq).writes = []) ∧
    ((scanApiBackend noAuthApiReq).status = 401 ∧
     (scanApiBackend noAuthApiReq).writes = [] ∧
     (scanApiBackend noAuthApiReq).fetched = []) ∧
    ((blockEntity noAuthBlockReq).status = 401 ∧
     (blockEntity noAuthBlockReq).writes = []) ∧
    ((liveThreatStream noAuthStreamReq).status = 401 ∧
     (liveThreatStream noAuthStreamReq).writes = []) :=
  auth_checked_handlers_reject_missing_header noAuthScanReq noAuthQrReq
    noAuthApiReq noAuthBlockReq noAuthStreamReq rfl rfl rfl rfl rfl

/-- C6: block-entity is admin-gated: an authenticated caller whose role
lookup does not yield the admin role receives status 403 with no write to
blocked_entities, blocked_attacks, audit_logs or realtime_logs, and,
conversely, any invocation that performs a write had an admin caller. -/
theorem blockEntity_admin_gated (r : BlockRequest)
    (hh : r.hasAuthHeader = true) (hu : r.authUser.isSome = true)
    (hrole : r.role ≠ some "admin") :
    (blockEntity r).status = 403 ∧ (blockEntity r).writes = [] ∧
    (∀ r2 : BlockRequest,
      (blockEntity r2).writes ≠ [] → r2.role = some "admin") := by
  obtain ⟨uid, hu2⟩ := Option.isSome_iff_exists.mp hu
  have hbne : (r.role != some "admin") = true := bne_iff_ne.mpr hrole
  refine ⟨?_, ?_, ?_⟩
  · simp [blockEntity, hh, hu2, hbne, errResp]
  · simp [blockEntity, hh, hu2, hbne, errResp]
  · intro r2 hw
    by_contra hne
    apply hw
    cases hh2 : r2.hasAuthHeader with
    | false => simp [blockEntity, hh2, errResp]
    | true =>
      cases hu3 : r2.authUser with
      | none => simp [blockEntity, hh2, hu3, errResp]
      | some u =>
        have hbne2 : (r2.role != some "admin") = true := bne_iff_ne.mpr hne
        simp [blockEntity, hh2, hu3, hbne2, errResp]

/-- An authenticated non-admin block request, used to witness C6. -/
def nonAdminBlockReq : BlockRequest :=
  ⟨true, some "u1", some "viewer", some "ip", some "1.2.3.4",
   false, false, true⟩

theorem blockEntity_admin_gated_witness :
    (blockEntity nonAdminBlockReq).status = 403 ∧
    (blockEntity nonAdminBlockReq).writes = [] ∧
    (∀ r2 : BlockRequest,
      (blockEntity r2).writes ≠ [] → r2.role = some "admin") :=
  blockEntity_admin_gated nonAdminBlockReq rfl rfl (by decide)

/-- C7: when the LLM call fails (`analyzeWithGemini` returns null), each
scan handler substitutes its hardcoded fallback object, still stores a
scan_results row with status `completed`, and returns HTTP 200 with the
fallback object rather than an error; shown for the secured scan-website
handler, the secured analyze-qr handler and the legacy scan-api handler. -/
theorem llm_failure_falls_back (r : ScanRequest) (x : QrRequest)
    (q : ApiRequest) (u w : URLModel)
    (hra : r.hasAuthHeader = true) (hru : r.authUser.isSome = true)
    (hrb : r.bodyUrl.isSome = true) (hrv : validateUrl r.parsed = .valid u)
    (hrp : r.monitoringPaused = false) (hrd : r.domainBlocked = false)
    (hrg : r.geminiVulns = none)
    (hxa : x.hasAuthHeader = true) (hxu : x.authUser.isSome = true)
    (hxb : x.bodyUrl.isSome = true) (hxv : validateUrlQr x.parsed = .valid w)
    (hxp : x.monitoringPaused = false) (hxd : x.domainBlocked = false)
    (hxg : x.gemini = none)
    (hqe : q.endpoint.isSome = true) (hqp : q.monitoringPaused = false)
    (hqpar : q.parsed.isSome = true) (hqd : q.domainBlocked = false)
    (hqg : q.geminiVulns = none) :
    ((scanWebsiteBackend r).status = 200 ∧
     (scanWebsiteBackend r).usedFallback = some true ∧
     (scanWebsiteBackend r).writes =
       [DbWrite.scanResults "website" "completed", DbWrite.threats "website",
        DbWrite.auditLogs "website_scan"]) ∧
    ((analyzeQrBackend x).status = 200 ∧
     (analyzeQrBackend x).usedFallback = some true ∧
     (analyzeQrBackend x).writes.head? =
       some (DbWrite.scanResults "qr" "completed")) ∧
    ((scanApiLegacy q).status = 200 ∧
     (scanApiLegacy q).usedFallback = some true ∧
     (scanApiLegacy q).writes =
       [DbWrite.scanResults "api" "completed", DbWrite.threats "api"]) := by
  obtain ⟨uid, hru2⟩ := Option.isSome_iff_exists.mp hru
  obtain ⟨us, hrb2⟩ := Option.isSome_iff_exists.mp hrb
  obtain ⟨uid2, hxu2⟩ := Option.isSome_iff_exists.mp hxu
  obtain ⟨us2, hxb2⟩ := Option.isSome_iff_exists.mp hxb
  obtain ⟨es, hqe2⟩ := Option.isSome_iff_exists.mp hqe
  obtain ⟨pu, hqpar2⟩ := Option.isSome_iff_exists.mp hqpar
  refine ⟨?_, ?_, ?_⟩
  · cases hhttps : r.isHttps <;>
      simp [scanWebsiteBackend, hra, hru2, hrb2, hrv, hrp, hrd, hrg, hhttps]
  · by_cases hm : (qrFallback w.href).isMalicious = true <;>
      simp [analyzeQrBackend, hxa, hxu2, hxb2, hxv, hxp, hxd, hxg, hm]
  · simp [scanApiLegacy, hqe2, hqp, hqpar2, hqd, hqg]

/-- A benign parsed URL accepted by the validator. -/
def exampleParsedUrl : URLModel :=
  ⟨"https:", "example.com", "https://example.com/"⟩

def fallbackScanReq : ScanRequest :=
  ⟨true, some "u1", some "https://example.com/", some exampleParsedUrl,
   false, false, true, none⟩

def fallbackQrReq : QrRequest :=
  ⟨true, some "u1", some "https://example.com/", some exampleParsedUrl,
   false, false, none⟩

def fallbackApiReq : ApiRequest :=
  ⟨true, some "u1", some "https://example.com/", some exampleParsedUrl,
   false, false, none⟩

theorem llm_failure_falls_back_witness :
    ((scanWebsiteBackend fallbackScanReq).status = 200 ∧
     (scanWebsiteBackend fallbackScanReq).usedFallback = some true ∧
     (scanWebsiteBackend fallbackScanReq).writes =
       [DbWrite.scanResults "website" "completed", DbWrite.threats "website",
        DbWrite.auditLogs "website_scan"]) ∧
    ((analyzeQrBackend fallbackQrReq).status = 200 ∧
     (analyzeQrBackend fallbackQrReq).usedFallback = some true ∧
     (analyzeQrBackend fallbackQrReq).writes.head? =
       some (DbWrite.scanResults "qr" "completed")) ∧
    ((scanApiLegacy fallbackApiReq).status = 200 ∧
     (scanApiLegacy fallbackApiReq).usedFallback = some true ∧
     (scanApiLegacy fallbackApiReq).writes =
       [DbWrite.scanResults "api" "completed", DbWrite.threats "api"]) :=
  llm_failure_falls_back fallbackScanReq fallbackQrReq fallbackApiReq
    exampleParsedUrl exampleParsedUrl rfl rfl rfl (by decide) rfl rfl rfl
    rfl rfl rfl (by decide) rfl rfl rfl rfl rfl rfl rfl rfl

/-- C9: blocking an already-blocked (type, value) pair is idempotent at the
block-entity interface: an admin request for a pair already present in
blocked_entities gets a 200 response with `success = false` and a
`... is already blocked` message, and no row is inserted into
blocked_entities, blocked_attacks, audit_logs or realtime_logs. -/
theorem blockEntity_idempotent (r : BlockRequest) (t : String)
    (hh : r.hasAuthHeader = true) (hu : r.authUser.isSome = true)
    (hrole : r.role = some "admin") (ht : r.bodyType = some t)
    (hv : r.bodyValue.isSome = true)
    (htv : ["ip", "domain", "api_key"].contains t = true)
    (hab : r.alreadyBlocked = true) :
    (blockEntity r).status = 200 ∧
    (blockEntity r).success = some false ∧
    (blockEntity r).message = some (t ++ " is already blocked") ∧
    (blockEntity r).writes = [] := by
  obtain ⟨uid, hu2⟩ := Option.isSome_iff_exists.mp hu
  obtain ⟨v, hv2⟩ := Option.isSome_iff_exists.mp hv
  have hbne : (r.role != some "admin") = false := by simp [hrole]
  have htv2 : t = "ip" ∨ t = "domain" ∨ t = "api_key" := by
    simpa using htv
  refine ⟨?_, ?_, ?_, ?_⟩ <;>
    rcases htv2 with h | h | h <;>
    simp [blockEntity, hh, hu2, hbne, ht, hv2, h, hab, errResp]

/-- An admin request to re-block an already-blocked IP, witnessing C9. -/
def reblockReq : BlockRequest :=
  ⟨true, some "u1", some "admin", some "ip", some "10.0.0.5",
   false, true, true⟩

theorem blockEntity_idempotent_witness :
    (blockEntity reblockReq).status = 200 ∧
    (blockEntity reblockReq).success = some false ∧
    (blockEntity reblockReq).message = some "ip is already blocked" ∧
    (blockEntity reblockReq).writes = [] :=
  blockEntity_idempotent reblockReq "ip" rfl rfl rfl rfl rfl (by decide) rfl

/-- C10: when `monitoring_status.status` is `paused`, the scan handlers
(scan-website, analyze-qr, legacy scan-api, scan-static) perform no
outbound fetch of the target and write no scan_results, threats or
audit_logs rows, whatever the rest of the request looks like; and a request
that passes the preceding guards (auth present and valid, body field
present, URL accepted by the validator where one runs) is answered with
status 403 and the `Monitoring is paused` error. -/
theorem paused_scans_rejected (r : ScanRequest) (x : QrRequest)
    (q : ApiRequest) (s : StaticRequest)
    (hr : r.monitoringPaused = true) (hx : x.monitoringPaused = true)
    (hq2 : q.monitoringPaused = true) (hs : s.monitoringPaused = true) :
    ((scanWebsiteBackend r).fetched = [] ∧
     (scanWebsiteBackend r).writes = []) ∧
    ((analyzeQrBackend x).fetched = [] ∧ (analyzeQrBackend x).writes = []) ∧
    ((scanApiLegacy q).fetched = [] ∧ (scanApiLegacy q).writes = []) ∧
    ((scanStatic s).fetched = [] ∧ (scanStatic s).writes = []) ∧
    (∀ u, r.hasAuthHeader = true → r.authUser.isSome = true →
      r.bodyUrl.isSome = true → validateUrl r.parsed = .valid u →
      scanWebsiteBackend r =
        errResp 403 "Monitoring is paused. Resume to perform scans.") ∧
    (∀ w, x.hasAuthHeader = true → x.authUser.isSome = true →
      x.bodyUrl.isSome = true → validateUrlQr x.parsed = .valid w →
      analyzeQrBackend x =
        errResp 403 "Monitoring is paused. Resume to perform scans.") ∧
    (q.endpoint.isSome = true →
      scanApiLegacy q =
        errResp 403 "Monitoring is paused. Resume to perform scans.") ∧
    (s.filename.isSome = true →
      scanStatic s =
        errResp 403 "Monitoring is paused. Resume to perform scans.") := by
  refine ⟨?_, ?_, ?_, ?_, ?_, ?_, ?_, ?_⟩
  · constructor <;>
    · unfold scanWebsiteBackend
      repeat' split
      all_goals simp_all [errResp]
  · constructor <;>
    · unfold analyzeQrBackend
      repeat' split
      all_goals simp_all [errResp]
  · constructor <;>
    · unfold scanApiLegacy
      repeat' split
      all_goals simp_all [errResp]
  · constructor <;>
    · unfold scanStatic
      repeat' split
      all_goals simp_all [errResp]
  · intro u hh hu hb hv
    obtain ⟨uid, hu2⟩ := Option.isSome_iff_exists.mp hu
    obtain ⟨us, hb2⟩ := Option.isSome_iff_exists.mp hb
    simp [scanWebsiteBackend, hh, hu2, hb2, hv, hr, errResp]
  · intro w hh hu hb hv
    obtain ⟨uid, hu2⟩ := Option.isSome_iff_exists.mp hu
    obtain ⟨us, hb2⟩ := Option.isSome_iff_exists.mp hb
    simp [analyzeQrBackend, hh, hu2, hb2, hv, hx, errResp]
  · intro he
    obtain ⟨es, he2⟩ := Option.isSome_iff_exists.mp he
    simp [scanApiLegacy, he2, hq2, errResp]
  · intro hf
    obtain ⟨fn, hf2⟩ := Option.isSome_iff_exists.mp hf
    simp [scanStatic, hf2, hs, errResp]

/-- Paused-mode requests witnessing C10. -/
def pausedScanReq : ScanRequest :=
  ⟨true, some "u1", some "https://example.com/", some exampleParsedUrl,
   true, false, true, none⟩

def pausedQrReq : QrRequest :=
  ⟨true, some "u1", some "https://example.com/", some exampleParsedUrl,
   true, false, none⟩

def pausedApiReq : ApiRequest :=
  ⟨true, some "u1", some "https://example.com/", some exampleParsedUrl,
   true, false, none⟩

def pausedStaticReq : StaticRequest := ⟨true, some "report.pdf", true, none⟩

theorem paused_scans_rejected_witness :
    ((scanWebsiteBackend pausedScanReq).fetched = [] ∧
     (scanWebsiteBackend pausedScanReq).writes = []) ∧
    ((analyzeQrBackend pausedQrReq).fetched = [] ∧
     (analyzeQrBackend pausedQrReq).writes = []) ∧
    ((scanApiLegacy pausedApiReq).fetched = [] ∧
     (scanApiLegacy pausedApiReq).writes = []) ∧
    ((scanStatic pausedStaticReq).fetched = [] ∧
     (scanStatic pausedStaticReq).writes = []) ∧
    (∀ u, pausedScanReq.hasAuthHeader = true →
      pausedScanReq.authUser.isSome = true →
      pausedScanReq.bodyUrl.isSome = true →
      validateUrl pausedScanReq.parsed = .valid u →
      scanWebsiteBackend pausedScanReq =
        errResp 403 "Monitoring is paused. Resume to perform scans.") ∧
    (∀ w, pausedQrReq.hasAuthHeader = true →
      pausedQrReq.authUser.isSome = true →
      pausedQrReq.bodyUrl.isSome = true →
      validateUrlQr pausedQrReq.parsed = .valid w →
      analyzeQrBackend pausedQrReq =
        errResp 403 "Monitoring is paused. Resume to perform scans.") ∧
    (pausedApiReq.endpoint.isSome = true →
      scanApiLegacy pausedApiReq =
        errResp 403 "Monitoring is paused. Resume to perform scans.") ∧
    (pausedStaticReq.filename.isSome = true →
      scanStatic pausedStaticReq =
        errResp 403 "Monitoring is paused. Resume to perform scans.") :=
  paused_scans_rejected pausedScanReq pausedQrReq pausedApiReq
    pausedStaticReq rfl rfl rfl rfl

end ThreatPlatform
